import Mathlib

/-!
Shallow embedding of the Influence Identification & Social-Graph Scoring
Engine of `src/src/core/kol_analysis.py` (class `KOLAnalyzer`), together with
proofs settling the specification claims about it.

Python floats are modelled as exact rationals (`ℚ`), Python ints as `ℤ`/`ℕ`,
the ordered `user_stats` dict as an association list, and the implicit global
numpy random generator as an explicit stream of draws threaded through the
augmenter.  Fallible code (`ZeroDivisionError`, `networkx` exceptions) is
modelled with `Except`.
-/

set_option maxRecDepth 8000

namespace KolAnalysis

/-- Rounding half to even on rationals: the integer nearest to `q`, with ties
going to the even integer.  This is the rounding rule of Python's builtin
`round`. -/
def roundHalfEven (q : ℚ) : ℤ :=
  if Int.fract q < 1/2 then ⌊q⌋
  else if 1/2 < Int.fract q then ⌈q⌉
  else if ⌊q⌋ % 2 = 0 then ⌊q⌋ else ⌊q⌋ + 1

/-- Python's `round(x, 2)`: round to two decimal places. -/
def pyRound2 (q : ℚ) : ℚ := (roundHalfEven (q * 100) : ℚ) / 100

/-- One record of the `user_stats` map built by `generate_mock_kol_data`
(kol_analysis.py lines 146-177).  The fields are exactly the keys of the
per-user dict constructed there. -/
structure UserStats where
  user_name : String
  follower_count : ℤ
  following_count : ℤ
  tweet_count : ℕ
  total_views : ℚ
  total_likes : ℚ
  total_retweets : ℚ
  total_replies : ℚ
  engagement_rate : ℚ
  reach_score : ℚ
  account_age_days : ℤ
  verified : Bool
  last_active : ℤ
deriving DecidableEq

/-- The four capped score components of `_calculate_influence_score`
(kol_analysis.py lines 250-267), summed before the verification bonus. -/
def base_score (s : UserStats) : ℚ :=
  let follower_score := min ((s.follower_count : ℚ) / 1000000) 1 * 40
  let engagement_score := min (s.engagement_rate * 100) 30
  let reach_score := min (s.reach_score / 10000) 20
  let activity_score := min ((s.tweet_count : ℚ) / 1000) 10
  follower_score + engagement_score + reach_score + activity_score

/-- The pre-rounding value of `_calculate_influence_score` including the
`total_score *= 1.2` verification bonus (lines 266-272). -/
def raw_total_score (s : UserStats) : ℚ :=
  if s.verified then base_score s * 1.2 else base_score s

/-- `_calculate_influence_score` (kol_analysis.py lines 236-274); the function
returns `round(total_score, 2)`. -/
def calculate_influence_score (s : UserStats) : ℚ :=
  pyRound2 (raw_total_score s)

/-- The topical categories returned by `_categorize_kol`. -/
inductive Category where
  | crypto | tech | finance | entertainment | general
deriving DecidableEq

/-- Python's substring test `pat in s`. -/
def containsSub (s pat : String) : Bool :=
  (List.range (s.length + 1)).any (fun i => pat.toList.isPrefixOf (s.toList.drop i))

/-- `_categorize_kol` (kol_analysis.py lines 276-306): case-insensitive substring
match of the display name against ordered keyword groups, first group wins,
default `general`. -/
def categorize_kol (s : UserStats) : Category :=
  let n := s.user_name.toLower
  if ["crypto", "btc", "eth", "nft"].any (fun k => containsSub n k) then .crypto
  else if ["tech", "ai", "startup"].any (fun k => containsSub n k) then .tech
  else if ["trading", "finance", "invest"].any (fun k => containsSub n k) then .finance
  else if ["gaming", "art", "music"].any (fun k => containsSub n k) then .entertainment
  else .general

/-- The four KOL levels returned by `_determine_kol_level`. -/
inductive Tier where
  | tier1 | tier2 | tier3 | tier4
deriving DecidableEq

/-- `_determine_kol_level` (kol_analysis.py lines 308-327). -/
def determine_kol_level (influence_score : ℚ) : Tier :=
  if 80 ≤ influence_score then .tier1
  else if 60 ≤ influence_score then .tier2
  else if 40 ≤ influence_score then .tier3
  else .tier4

/-- A qualified account as stored in `self.kol_data`: the stats record plus the
three derived fields added by `identify_kols` (lines 224-229). -/
structure KolRecord where
  stats : UserStats
  influence_score : ℚ
  category : Category
  kol_level : Tier
deriving DecidableEq

/-- The qualification gate `is_kol` of `identify_kols` (lines 208-212):
`follower_count >= min_followers and engagement_rate >= min_engagement and
tweet_count >= 10`. -/
def is_kol (min_followers : ℤ) (min_engagement : ℚ) (s : UserStats) : Bool :=
  decide (min_followers ≤ s.follower_count) &&
    decide (min_engagement ≤ s.engagement_rate) &&
    decide (10 ≤ s.tweet_count)

/-- The enrichment applied to a gated account (lines 214-229). -/
def mk_kol_record (s : UserStats) : KolRecord :=
  { stats := s
    influence_score := calculate_influence_score s
    category := categorize_kol s
    kol_level := determine_kol_level (calculate_influence_score s) }

/-- `identify_kols` (kol_analysis.py lines 182-234): keeps, in map order, the
accounts passing the gate and attaches score, category and level.  The Python
dict iterates in insertion order, modelled by an association list. -/
def identify_kols (min_followers : ℤ) (min_engagement : ℚ)
    (user_stats : List (String × UserStats)) : List (String × KolRecord) :=
  (user_stats.filter (fun p => is_kol min_followers min_engagement p.2)).map
    (fun p => (p.1, mk_kol_record p.2))

/-- The `summary` block of the report (lines 445-449). -/
structure ReportSummary where
  total_kols : ℕ
  total_users : ℕ
  kol_percentage : ℚ

/-- One entry of `report['top_kols']` (lines 457-465). -/
structure TopKolEntry where
  user_id : String
  user_name : String
  influence_score : ℚ
  follower_count : ℤ
  category : Category
  kol_level : Tier
  engagement_rate : ℚ
deriving DecidableEq

/-- The report value built by `generate_kol_report` (lines 444-453). -/
structure KolReport where
  summary : ReportSummary
  top_kols : List TopKolEntry
  category_distribution : Category → ℕ
  level_distribution : Tier → ℕ

/-- The comparison used to rank qualified accounts: `b` may follow `a` when
`a`'s influence score is at least `b`'s. -/
def kolGe (a b : String × KolRecord) : Prop :=
  b.2.influence_score ≤ a.2.influence_score

instance : DecidableRel kolGe :=
  fun a b => inferInstanceAs (Decidable (b.2.influence_score ≤ a.2.influence_score))

instance : IsTotal (String × KolRecord) kolGe :=
  ⟨fun a b => le_total b.2.influence_score a.2.influence_score⟩

instance : IsTrans (String × KolRecord) kolGe :=
  ⟨fun _ _ _ h1 h2 => le_trans h2 h1⟩

/-- Line 442: `sorted(self.kol_data.items(), key=lambda x: x[1]['influence_score'],
reverse=True)`.  Python's `sorted` is a stable sort; with the reversed key
comparison it is exactly the stable insertion sort under `kolGe`. -/
def sorted_kols (kols : List (String × KolRecord)) : List (String × KolRecord) :=
  List.insertionSort kolGe kols

/-- The dict appended to `report['top_kols']` for one ranked account
(lines 457-465). -/
def mk_top_entry (p : String × KolRecord) : TopKolEntry :=
  { user_id := p.1
    user_name := p.2.stats.user_name
    influence_score := p.2.influence_score
    follower_count := p.2.stats.follower_count
    category := p.2.category
    kol_level := p.2.kol_level
    engagement_rate := p.2.stats.engagement_rate }

/-- `generate_kol_report` (kol_analysis.py lines 423-472), applied to the
`user_stats` map; `kol_data` is recomputed by `identify_kols` as in lines
437-438.  The `kol_percentage` expression divides by `len(self.user_stats)`
(line 448) and raises `ZeroDivisionError` on an empty stats map, hence the
`Except`.  The tier and category distributions are incremented inside the
top-20 loop (lines 456-469), so they count only the ranked top-20 accounts. -/
def generate_kol_report (min_followers : ℤ) (min_engagement : ℚ)
    (user_stats : List (String × UserStats)) : Except String KolReport :=
  let kols := identify_kols min_followers min_engagement user_stats
  let sorted := sorted_kols kols
  let top := sorted.take 20
  if user_stats.length = 0 then .error "ZeroDivisionError"
  else .ok
    { summary :=
        { total_kols := kols.length
          total_users := user_stats.length
          kol_percentage := (kols.length : ℚ) / (user_stats.length : ℚ) * 100 }
      top_kols := top.map mk_top_entry
      category_distribution := fun c =>
        (top.filter (fun p => decide (p.2.category = c))).length
      level_distribution := fun t =>
        (top.filter (fun p => decide (p.2.kol_level = t))).length }

/-- A directed graph given by node and edge lists, as built by
`nx.DiGraph` inside `build_user_network`. -/
structure DiGraphL where
  nodes : List String
  edges : List (String × String)
deriving DecidableEq

/-- `build_user_network` (kol_analysis.py lines 329-357): one node per
`user_stats` key; a follow edge `(user_id, following_user_id)` is added only
when both endpoints are keys of `user_stats` (line 353). -/
def build_user_network (user_stats : List (String × UserStats))
    (followings : List (String × String)) : DiGraphL :=
  let keys := user_stats.map Prod.fst
  { nodes := keys
    edges := followings.filter (fun e => decide (e.1 ∈ keys) && decide (e.2 ∈ keys)) }

/-- Successors of `v` along the directed edge list. -/
def out_neighbors (edges : List (String × String)) (v : String) : List String :=
  (edges.filter (fun e => e.1 == v)).map Prod.snd

/-- One breadth step: add every unvisited successor of the visited set. -/
def expand_once (edges : List (String × String)) (visited : List String) : List String :=
  visited ++ ((visited.map (out_neighbors edges)).flatten.filter
    (fun v => !visited.contains v)).dedup

/-- All nodes reachable from `src` within `fuel` steps. -/
def reachable_from (edges : List (String × String)) : ℕ → String → List String
  | 0, src => [src]
  | n + 1, src => expand_once edges (reachable_from edges n src)

/-- The edge list of `G.to_undirected()`: every edge in both directions. -/
def undirected_edges (g : DiGraphL) : List (String × String) :=
  g.edges ++ g.edges.map (fun e => (e.2, e.1))

/-- Modelled from the networkx semantics of line 417:
`nx.is_connected(G.to_undirected())` — every node is reachable from the first
node in the undirected copy of the graph. -/
def is_weakly_connected (g : DiGraphL) : Bool :=
  match g.nodes with
  | [] => false
  | v :: _ =>
      g.nodes.all (fun u => (reachable_from (undirected_edges g) g.nodes.length v).contains u)

/-- Strong connectivity of the directed graph: every node reaches every node. -/
def is_strongly_connected (g : DiGraphL) : Bool :=
  g.nodes.all (fun u =>
    g.nodes.all (fun v => (reachable_from g.edges g.nodes.length u).contains v))

/-- Breadth-first levels: every reachable node paired with its shortest-path
distance from the initial frontier. -/
def bfs_levels (edges : List (String × String)) :
    ℕ → List String → List String → ℕ → List (String × ℕ)
  | 0, _, _, _ => []
  | fuel + 1, frontier, visited, d =>
      let next := ((frontier.map (out_neighbors edges)).flatten.filter
        (fun v => !visited.contains v)).dedup
      frontier.map (fun v => (v, d)) ++ bfs_levels edges fuel next (visited ++ next) (d + 1)

/-- Shortest-path distances from `src`. -/
def distances_from (edges : List (String × String)) (fuel : ℕ) (src : String) :
    List (String × ℕ) :=
  bfs_levels edges (fuel + 1) [src] [src] 0

/-- The value of the `avg_shortest_path` metric: a finite rational or
`float('inf')`. -/
inductive PathLength where
  | finite (val : ℚ)
  | infinite
deriving DecidableEq

/-- Modelled from the networkx semantics of `nx.average_shortest_path_length`
on a directed graph: the mean of `d(u, v)` over ordered pairs of distinct
nodes; raises `NetworkXError` when the directed graph is not strongly
connected. -/
def nx_average_shortest_path_length (g : DiGraphL) : Except String ℚ :=
  if is_strongly_connected g then
    let n := g.nodes.length
    let total := (g.nodes.map (fun u =>
      (((distances_from g.edges n u).filter (fun p => p.1 != u)).map Prod.snd).sum)).sum
    .ok ((total : ℚ) / ((n : ℚ) * ((n : ℚ) - 1)))
  else .error "NetworkXError: Graph is not strongly connected."

/-- The `avg_shortest_path` entry of `analyze_network_metrics` (line 417):
`nx.average_shortest_path_length(self.user_network) if
nx.is_connected(self.user_network.to_undirected()) else float('inf')`. -/
def avg_shortest_path_metric (g : DiGraphL) : Except String PathLength :=
  if is_weakly_connected g then
    (nx_average_shortest_path_length g).map PathLength.finite
  else .ok .infinite

/-- The measured per-account quantities computed from the posts
(kol_analysis.py lines 130-148 and 158-176) before any synthesis. -/
structure MeasuredStats where
  user_name : String
  tweet_count : ℕ
  total_views : ℚ
  total_likes : ℚ
  total_retweets : ℚ
  total_replies : ℚ
  engagement_rate : ℚ
  reach_score : ℚ
  last_active : ℤ
deriving DecidableEq

/-- Modelled from the numpy semantics of `np.random.randint(lo, hi)`: one draw
is consumed from the global generator's stream and mapped into `[lo, hi)`. -/
def np_randint (lo hi : ℕ) (rng : List ℕ) : ℕ × List ℕ :=
  (lo + rng.headD 0 % (hi - lo), rng.tail)

/-- Modelled from the numpy semantics of
`np.random.choice([True, False], p=[0.1, 0.9])`: one draw is consumed and the
one-in-ten outcome is `True`. -/
def np_choice_verified (rng : List ℕ) : Bool × List ℕ :=
  (rng.headD 0 % 10 == 0, rng.tail)

/-- One iteration of the `generate_mock_kol_data` loop (lines 147-177): the
four synthesized fields are drawn in source order — follower count in
`[1000, 1000000)`, following count in `[100, 10000)`, account age in
`[30, 1000)`, then the verification flag.  The function has no seed
parameter; it reads the advancing global generator. -/
def augment_one (m : MeasuredStats) (rng : List ℕ) : UserStats × List ℕ :=
  let (f, r1) := np_randint 1000 1000000 rng
  let (fo, r2) := np_randint 100 10000 r1
  let (age, r3) := np_randint 30 1000 r2
  let (v, r4) := np_choice_verified r3
  ({ user_name := m.user_name
     follower_count := (f : ℤ)
     following_count := (fo : ℤ)
     tweet_count := m.tweet_count
     total_views := m.total_views
     total_likes := m.total_likes
     total_retweets := m.total_retweets
     total_replies := m.total_replies
     engagement_rate := m.engagement_rate
     reach_score := m.reach_score
     account_age_days := (age : ℤ)
     verified := v
     last_active := m.last_active }, r4)

/-- `generate_mock_kol_data` (kol_analysis.py lines 109-180), restricted to its
augmentation behaviour: for each account, in order, the measured fields are
kept and the missing follower/following/age/verified fields are drawn from the
global generator's stream. -/
def generate_mock_kol_data (ms : List (String × MeasuredStats)) (rng : List ℕ) :
    List (String × UserStats) × List ℕ :=
  match ms with
  | [] => ([], rng)
  | (uid, m) :: rest =>
      let (s, r1) := augment_one m rng
      let (tail, r2) := generate_mock_kol_data rest r1
      ((uid, s) :: tail, r2)

/-- The literal keys of the per-user dict built by `generate_mock_kol_data`
(kol_analysis.py lines 147-177), in source order. -/
def user_stats_field_names : List String :=
  ["user_name", "follower_count", "following_count", "tweet_count",
   "total_views", "total_likes", "total_retweets", "total_replies",
   "engagement_rate", "reach_score", "account_age_days", "verified",
   "last_active"]

/-- The literal keys of each `report['top_kols']` entry built by
`generate_kol_report` (kol_analysis.py lines 457-465). -/
def top_kol_field_names : List String :=
  ["user_id", "user_name", "influence_score", "follower_count", "category",
   "kol_level", "engagement_rate"]

/-- The sum of the tier-distribution counts of a report over all four tiers. -/
def tier_distribution_total (r : KolReport) : ℕ :=
  r.level_distribution .tier1 + r.level_distribution .tier2 +
    r.level_distribution .tier3 + r.level_distribution .tier4

/-- The sum of the category-distribution counts of a report over all five
categories. -/
def category_distribution_total (r : KolReport) : ℕ :=
  r.category_distribution .crypto + r.category_distribution .tech +
    r.category_distribution .finance + r.category_distribution .entertainment +
    r.category_distribution .general

/-- The payload of a successful report computation, with an inert empty report
for the error case; used only to name the report produced at concrete inputs
where the computation is shown to succeed. -/
def report_or_empty (e : Except String KolReport) : KolReport :=
  match e with
  | .ok r => r
  | .error _ =>
      { summary := { total_kols := 0, total_users := 0, kol_percentage := 0 }
        top_kols := []
        category_distribution := fun _ => 0
        level_distribution := fun _ => 0 }

/-- A concrete account record with the given display name and follower count;
the measured fields describe 12 posts with 2 likes in total, so
`engagement_rate = 2/12 = 1/6` and `reach_score = 0`. -/
def plainStats (name : String) (followers : ℤ) : UserStats :=
  { user_name := name
    follower_count := followers
    following_count := 100
    tweet_count := 12
    total_views := 0
    total_likes := 2
    total_retweets := 0
    total_replies := 0
    engagement_rate := 1/6
    reach_score := 0
    account_age_days := 100
    verified := false
    last_active := 0 }

/-- Concrete record used for claim C1: its raw formula value is
`2/5 + 50/3 + 0 + 3/250 = 12809/750`, which is not a multiple of `1/100`. -/
def c1Stats : UserStats := plainStats "alice" 10000

/-- Concrete record used for claim C2: its base score is exactly `20.41`. -/
def c2Stats : UserStats :=
  { user_name := "bob"
    follower_count := 10000
    following_count := 100
    tweet_count := 10
    total_views := 0
    total_likes := 2
    total_retweets := 0
    total_replies := 0
    engagement_rate := 1/5
    reach_score := 0
    account_age_days := 100
    verified := false
    last_active := 0 }

/-- Concrete stats map for claim C3: one qualified and one unqualified
account. -/
def c3Stats : List (String × UserStats) :=
  [("u1", plainStats "alice" 15000), ("u2", plainStats "bob" 5000)]

/-- The report produced on `c3Stats`. -/
def c3Report : KolReport := report_or_empty (generate_kol_report 10000 (1/10) c3Stats)

/-- Concrete stats map for claim C5. -/
def c5Stats : List (String × UserStats) :=
  [("A", plainStats "userA" 15000), ("B", plainStats "userB" 15000)]

/-- A single follow edge A → B: the resulting graph is weakly but not strongly
connected. -/
def c5Follows : List (String × String) := [("A", "B")]

/-- The network built on `c5Stats` and `c5Follows`. -/
def c5Graph : DiGraphL := build_user_network c5Stats c5Follows

/-- Concrete stats map for claim C6 with 21 qualified accounts. -/
def c6BigStats : List (String × UserStats) :=
  ["u01", "u02", "u03", "u04", "u05", "u06", "u07", "u08", "u09", "u10",
   "u11", "u12", "u13", "u14", "u15", "u16", "u17", "u18", "u19", "u20",
   "u21"].map (fun uid => (uid, plainStats "kol" 10000))

/-- The tier-distribution total and the qualified count of the report on
`c6BigStats`, when that report is produced. -/
def c6Observed : Option (ℕ × ℕ) :=
  (generate_kol_report 10000 (1/10) c6BigStats).toOption.map
    (fun r => (tier_distribution_total r, r.summary.total_kols))

/-- A one-account stats map used to witness the amended claim C6. -/
def c6SmallStats : List (String × UserStats) := [("u1", plainStats "alice" 15000)]

/-- The report produced on `c6SmallStats`. -/
def c6SmallReport : KolReport :=
  report_or_empty (generate_kol_report 10000 (1/10) c6SmallStats)

/-- Concrete measured record for claim C8. -/
def c8Measured : MeasuredStats :=
  { user_name := "u"
    tweet_count := 12
    total_views := 0
    total_likes := 2
    total_retweets := 0
    total_replies := 0
    engagement_rate := 1/6
    reach_score := 0
    last_active := 0 }

/-- A one-account input to the augmenter. -/
def c8Input : List (String × MeasuredStats) := [("u1", c8Measured)]

/-- A concrete state of the global generator's stream. -/
def c8Rng : List ℕ := [0, 0, 0, 0, 1, 1, 1, 1]

/-- First run of the augmenter: consumes the first four draws. -/
def c8FirstRun : List (String × UserStats) × List ℕ :=
  generate_mock_kol_data c8Input c8Rng

/-- Second run of the augmenter, started — as any rerun in the same process —
from the generator state the first run left behind. -/
def c8SecondRun : List (String × UserStats) × List ℕ :=
  generate_mock_kol_data c8Input c8FirstRun.2

/-- Concrete nonempty stats map for claim C9 on which no account qualifies. -/
def c9Stats : List (String × UserStats) := [("u2", plainStats "bob" 5000)]

/-- The report produced on `c9Stats`. -/
def c9Report : KolReport := report_or_empty (generate_kol_report 10000 (1/10) c9Stats)

/-! ### Properties of the rounding model -/

theorem ceil_of_fract_pos {q : ℚ} (h : Int.fract q ≠ 0) : ⌈q⌉ = ⌊q⌋ + 1 := by
  have hf : Int.fract q = q - ⌊q⌋ := rfl
  have h0 : 0 < Int.fract q := lt_of_le_of_ne (Int.fract_nonneg q) (Ne.symm h)
  have h1 : Int.fract q < 1 := Int.fract_lt_one q
  rw [Int.ceil_eq_iff]
  constructor
  · push_cast
    rw [hf] at h0
    linarith
  · push_cast
    rw [hf] at h1
    linarith

theorem roundHalfEven_bounds (q : ℚ) : ⌊q⌋ ≤ roundHalfEven q ∧ roundHalfEven q ≤ ⌈q⌉ := by
  unfold roundHalfEven
  split_ifs with ha hb hc
  · exact ⟨le_refl _, Int.floor_le_ceil q⟩
  · exact ⟨Int.floor_le_ceil q, le_refl _⟩
  · exact ⟨le_refl _, Int.floor_le_ceil q⟩
  · have heq : Int.fract q = 1/2 := le_antisymm (not_lt.mp hb) (not_lt.mp ha)
    have hc2 : ⌈q⌉ = ⌊q⌋ + 1 := ceil_of_fract_pos (by rw [heq]; norm_num)
    exact ⟨by omega, by omega⟩

theorem abs_roundHalfEven_sub_le (q : ℚ) : |(roundHalfEven q : ℚ) - q| ≤ 1/2 := by
  have hf : Int.fract q = q - ⌊q⌋ := rfl
  have h0 : (0:ℚ) ≤ Int.fract q := Int.fract_nonneg q
  have h1 : Int.fract q < 1 := Int.fract_lt_one q
  unfold roundHalfEven
  split_ifs with ha hb hc
  · rw [abs_le]
    rw [hf] at h0 ha
    constructor <;> linarith
  · have hc2 : ⌈q⌉ = ⌊q⌋ + 1 := ceil_of_fract_pos (by intro hz; rw [hz] at hb; norm_num at hb)
    rw [hc2, abs_le]
    rw [hf] at hb h1
    push_cast
    constructor <;> linarith
  · have heq : Int.fract q = 1/2 := le_antisymm (not_lt.mp hb) (not_lt.mp ha)
    rw [hf] at heq
    rw [abs_le]
    constructor <;> linarith
  · have heq : Int.fract q = 1/2 := le_antisymm (not_lt.mp hb) (not_lt.mp ha)
    rw [hf] at heq
    rw [abs_le]
    push_cast
    constructor <;> linarith

theorem pyRound2_nonneg {q : ℚ} (h : 0 ≤ q) : 0 ≤ pyRound2 q := by
  unfold pyRound2
  have h1 : (0:ℤ) ≤ ⌊q * 100⌋ := Int.le_floor.mpr (by push_cast; nlinarith)
  have h2 : (0:ℤ) ≤ roundHalfEven (q * 100) := le_trans h1 (roundHalfEven_bounds (q * 100)).1
  have h3 : (0:ℚ) ≤ ((roundHalfEven (q * 100) : ℤ) : ℚ) := by exact_mod_cast h2
  positivity

theorem pyRound2_le {q : ℚ} {c : ℤ} (h : q ≤ (c : ℚ)) : pyRound2 q ≤ (c : ℚ) := by
  unfold pyRound2
  have h1 : ⌈q * 100⌉ ≤ c * 100 := Int.ceil_le.mpr (by push_cast; nlinarith)
  have h3 : roundHalfEven (q * 100) ≤ c * 100 :=
    le_trans (roundHalfEven_bounds (q * 100)).2 h1
  rw [div_le_iff₀ (by norm_num : (0:ℚ) < 100)]
  calc ((roundHalfEven (q * 100) : ℤ) : ℚ) ≤ ((c * 100 : ℤ) : ℚ) := by exact_mod_cast h3
    _ = (c : ℚ) * 100 := by push_cast; ring

theorem abs_pyRound2_sub_le (q : ℚ) : |pyRound2 q - q| ≤ 1/200 := by
  have h := abs_roundHalfEven_sub_le (q * 100)
  have heq : pyRound2 q - q = ((roundHalfEven (q * 100) : ℚ) - q * 100) / 100 := by
    unfold pyRound2; ring
  rw [heq, abs_div, abs_of_pos (by norm_num : (0:ℚ) < 100)]
  rw [div_le_iff₀ (by norm_num : (0:ℚ) < 100)]
  linarith

/-! ### Bounds of the influence score -/

theorem base_score_le (s : UserStats) : base_score s ≤ 100 := by
  unfold base_score
  have h1 : min ((s.follower_count : ℚ) / 1000000) 1 * 40 ≤ 40 := by
    have := min_le_right ((s.follower_count : ℚ) / 1000000) 1
    nlinarith
  have h2 : min (s.engagement_rate * 100) 30 ≤ 30 := min_le_right _ _
  have h3 : min (s.reach_score / 10000) 20 ≤ 20 := min_le_right _ _
  have h4 : min ((s.tweet_count : ℚ) / 1000) 10 ≤ 10 := min_le_right _ _
  linarith

theorem base_score_nonneg {s : UserStats} (h1 : 0 ≤ s.follower_count)
    (h2 : 0 ≤ s.engagement_rate) (h3 : 0 ≤ s.reach_score) : 0 ≤ base_score s := by
  unfold base_score
  have hf : (0:ℚ) ≤ (s.follower_count : ℚ) := by exact_mod_cast h1
  have g1 : 0 ≤ min ((s.follower_count : ℚ) / 1000000) 1 * 40 := by
    apply mul_nonneg _ (by norm_num)
    exact le_min (by positivity) (by norm_num)
  have g2 : 0 ≤ min (s.engagement_rate * 100) 30 :=
    le_min (mul_nonneg h2 (by norm_num)) (by norm_num)
  have g3 : 0 ≤ min (s.reach_score / 10000) 20 :=
    le_min (div_nonneg h3 (by norm_num)) (by norm_num)
  have g4 : 0 ≤ min ((s.tweet_count : ℚ) / 1000) 10 := le_min (by positivity) (by norm_num)
  linarith

theorem raw_total_score_bounds {s : UserStats} (h1 : 0 ≤ s.follower_count)
    (h2 : 0 ≤ s.engagement_rate) (h3 : 0 ≤ s.reach_score) :
    0 ≤ raw_total_score s ∧ raw_total_score s ≤ 120 := by
  have hb0 := base_score_nonneg h1 h2 h3
  have hb1 := base_score_le s
  unfold raw_total_score
  split_ifs
  · constructor <;> nlinarith
  · constructor <;> linarith

/-! ### Claims about the scorer -/

/-- C1 (counterexample): on the concrete record `c1Stats` the emitted influence
score is not equal to the claim's formula value
`followerScore + engagementScore + reachScore + activityScore` (which is the
raw total, the record being unverified): the code rounds the total to two
decimal places first.  The second conjunct checks that the raw total really is
the claim's four-component sum at this input. -/
theorem C1_rounding_counterexample :
    calculate_influence_score c1Stats ≠ raw_total_score c1Stats ∧
    raw_total_score c1Stats =
      min ((c1Stats.follower_count : ℚ) / 1000000) 1 * 40 +
        min (c1Stats.engagement_rate * 100) 30 +
        min (c1Stats.reach_score / 10000) 20 +
        min ((c1Stats.tweet_count : ℚ) / 1000) 10 := by
  constructor
  · decide!
  · decide!

/-- C1 (amended): for every account record with nonnegative follower count,
engagement rate and reach, the emitted influence score equals the claim's
formula value rounded to two decimal places, and it always lies in
`[0, 132]`. -/
theorem C1_score_formula_and_bounds (s : UserStats) (h1 : 0 ≤ s.follower_count)
    (h2 : 0 ≤ s.engagement_rate) (h3 : 0 ≤ s.reach_score) :
    calculate_influence_score s = pyRound2 (raw_total_score s) ∧
    0 ≤ calculate_influence_score s ∧ calculate_influence_score s ≤ 132 := by
  refine ⟨rfl, ?_, ?_⟩
  · exact pyRound2_nonneg (raw_total_score_bounds h1 h2 h3).1
  · have h120 : raw_total_score s ≤ ((120 : ℤ) : ℚ) := by
      exact_mod_cast (raw_total_score_bounds h1 h2 h3).2
    calc calculate_influence_score s ≤ ((120 : ℤ) : ℚ) := pyRound2_le h120
      _ ≤ 132 := by norm_num

/-- C1 (witness): the amended theorem applied to the concrete record
`c1Stats`. -/
theorem C1_score_formula_and_bounds_witness :
    (0 ≤ c1Stats.follower_count ∧ 0 ≤ c1Stats.engagement_rate ∧
      0 ≤ c1Stats.reach_score) ∧
    (calculate_influence_score c1Stats = pyRound2 (raw_total_score c1Stats) ∧
      0 ≤ calculate_influence_score c1Stats ∧
      calculate_influence_score c1Stats ≤ 132) :=
  ⟨⟨by decide!, by decide!, by decide!⟩,
    C1_score_formula_and_bounds c1Stats (by decide!) (by decide!) (by decide!)⟩

/-- C2 (counterexample): on the concrete record `c2Stats` the score emitted for
the verified variant is not `1.2 ×` the score emitted for the unverified
variant: the base score `20.41` is emitted unchanged, while the verified total
`24.492` is rounded to `24.49 ≠ 1.2 × 20.41`. -/
theorem C2_verified_ratio_counterexample :
    calculate_influence_score { c2Stats with verified := true } ≠
      1.2 * calculate_influence_score c2Stats := by
  decide!

/-- C2 (amended): for every account record, the verified score equals `1.2 ×`
the unverified raw formula value, rounded to two decimal places, and it
therefore differs from `1.2 ×` the emitted unverified score by at most
`0.011`. -/
theorem C2_verified_bonus (s : UserStats) :
    calculate_influence_score { s with verified := true } =
        pyRound2 (base_score s * 1.2) ∧
    calculate_influence_score { s with verified := false } =
        pyRound2 (base_score s) ∧
    |calculate_influence_score { s with verified := true } -
        1.2 * calculate_influence_score { s with verified := false }| ≤ 11/1000 := by
  have e1 : calculate_influence_score { s with verified := true } =
      pyRound2 (base_score s * 1.2) := rfl
  have e2 : calculate_influence_score { s with verified := false } =
      pyRound2 (base_score s) := rfl
  refine ⟨e1, e2, ?_⟩
  have hv := abs_pyRound2_sub_le (base_score s * 1.2)
  have hu := abs_pyRound2_sub_le (base_score s)
  rw [abs_le] at hv hu
  rw [e1, e2, abs_le]
  constructor <;> nlinarith [hv.1, hv.2, hu.1, hu.2]

/-- C10 (confirmed): the scorer returns the raw formula value rounded to
exactly two decimal places; hence every emitted influence score is an integer
multiple of `0.01` and differs from the raw value by at most half of one
hundredth. -/
theorem C10_score_quantized (s : UserStats) :
    calculate_influence_score s = pyRound2 (raw_total_score s) ∧
    (∃ k : ℤ, calculate_influence_score s = (k : ℚ) / 100) ∧
    |calculate_influence_score s - raw_total_score s| ≤ 1/200 :=
  ⟨rfl, ⟨roundHalfEven (raw_total_score s * 100), rfl⟩,
    abs_pyRound2_sub_le (raw_total_score s)⟩

/-! ### The qualification gate and the report -/

theorem is_kol_iff (mf : ℤ) (me : ℚ) (s : UserStats) :
    is_kol mf me s = true ↔
      (mf ≤ s.follower_count ∧ me ≤ s.engagement_rate ∧ 10 ≤ s.tweet_count) := by
  simp [is_kol, and_assoc]

theorem mem_identify_kols {mf : ℤ} {me : ℚ} {stats : List (String × UserStats)}
    {p : String × KolRecord} :
    p ∈ identify_kols mf me stats ↔
      ∃ s, (p.1, s) ∈ stats ∧ is_kol mf me s = true ∧ p.2 = mk_kol_record s := by
  unfold identify_kols
  simp only [List.mem_map, List.mem_filter]
  constructor
  · rintro ⟨q, ⟨hq, hk⟩, rfl⟩
    exact ⟨q.2, by simpa using hq, hk, rfl⟩
  · rintro ⟨s, hs, hk, hp⟩
    refine ⟨(p.1, s), ⟨hs, hk⟩, ?_⟩
    rw [← hp]

theorem generate_kol_report_eq_ok {mf : ℤ} {me : ℚ} {stats : List (String × UserStats)}
    {r : KolReport} (h : generate_kol_report mf me stats = Except.ok r) :
    r.summary.total_kols = (identify_kols mf me stats).length ∧
    r.summary.total_users = stats.length ∧
    r.summary.kol_percentage =
      ((identify_kols mf me stats).length : ℚ) / (stats.length : ℚ) * 100 ∧
    r.top_kols = ((sorted_kols (identify_kols mf me stats)).take 20).map mk_top_entry ∧
    r.category_distribution = (fun c =>
      (((sorted_kols (identify_kols mf me stats)).take 20).filter
        (fun p => decide (p.2.category = c))).length) ∧
    r.level_distribution = (fun t =>
      (((sorted_kols (identify_kols mf me stats)).take 20).filter
        (fun p => decide (p.2.kol_level = t))).length) := by
  simp only [generate_kol_report] at h
  by_cases h0 : stats.length = 0
  · rw [if_pos h0] at h
    exact absurd h (by simp)
  · rw [if_neg h0] at h
    injection h with h'
    rw [← h']
    exact ⟨rfl, rfl, rfl, rfl, rfl, rfl⟩

/-- C3 (confirmed): with the default thresholds, an account is selected as
qualified (appears in the result of `identify_kols`) iff
`followerCount ≥ 10000 ∧ engagementRate ≥ 0.1 ∧ postCount ≥ 10`; consequently
every account in the report's `top_kols` has at least 10,000 followers. -/
theorem C3_gate_and_top_accounts (user_stats : List (String × UserStats)) :
    (∀ s : UserStats, is_kol 10000 (1/10) s = true ↔
      (10000 ≤ s.follower_count ∧ 1/10 ≤ s.engagement_rate ∧ 10 ≤ s.tweet_count)) ∧
    (∀ uid (s : UserStats),
      ((uid, s) ∈ user_stats ∧ is_kol 10000 (1/10) s = true) ↔
        ∃ k, (uid, k) ∈ identify_kols 10000 (1/10) user_stats ∧ k.stats = s) ∧
    (∀ r, generate_kol_report 10000 (1/10) user_stats = Except.ok r →
      ∀ e ∈ r.top_kols, 10000 ≤ e.follower_count) := by
  refine ⟨fun s => is_kol_iff 10000 (1/10) s, fun uid s => ?_, fun r hr e he => ?_⟩
  · constructor
    · rintro ⟨hs, hk⟩
      exact ⟨mk_kol_record s, mem_identify_kols.mpr ⟨s, hs, hk, rfl⟩, rfl⟩
    · rintro ⟨k, hk, hks⟩
      obtain ⟨s', hs', hgate, hk2⟩ := mem_identify_kols.mp hk
      have hss : s = s' := by
        rw [← hks]
        rw [show ((uid, k).2 : KolRecord) = k from rfl] at hk2
        rw [hk2]
        rfl
      rw [hss]
      exact ⟨hs', hgate⟩
  · obtain ⟨-, -, -, htop, -, -⟩ := generate_kol_report_eq_ok hr
    rw [htop] at he
    obtain ⟨p, hp, rfl⟩ := List.mem_map.mp he
    have hp2 : p ∈ sorted_kols (identify_kols 10000 (1/10) user_stats) :=
      (List.take_sublist 20 _).subset hp
    have hp3 : p ∈ identify_kols 10000 (1/10) user_stats :=
      (List.perm_insertionSort kolGe _).mem_iff.mp hp2
    obtain ⟨s, hs, hgate, hp4⟩ := mem_identify_kols.mp hp3
    have hfc : (mk_top_entry p).follower_count = s.follower_count := by
      simp [mk_top_entry, hp4, mk_kol_record]
    rw [hfc]
    exact ((is_kol_iff _ _ _).mp hgate).1

/-- C3 (witness): on the concrete two-account map `c3Stats` the report is
produced and every ranked entry has at least 10,000 followers. -/
theorem C3_gate_and_top_accounts_witness :
    generate_kol_report 10000 (1/10) c3Stats = Except.ok c3Report ∧
    c3Report.top_kols.all (fun e => decide (10000 ≤ e.follower_count)) = true := by
  have hok : generate_kol_report 10000 (1/10) c3Stats = Except.ok c3Report := rfl
  refine ⟨hok, ?_⟩
  have h := (C3_gate_and_top_accounts c3Stats).2.2 c3Report hok
  rw [List.all_eq_true]
  intro e he
  exact decide_eq_true (h e he)

/-- C4 (confirmed): an edge is in the built social graph iff it occurs in the
follow-edge list and both endpoints are keys of the stats map; dangling edges
are dropped silently — the builder is a total function into graphs and has no
error outcome. -/
theorem C4_edge_admission (user_stats : List (String × UserStats))
    (followings : List (String × String)) (e : String × String) :
    e ∈ (build_user_network user_stats followings).edges ↔
      (e ∈ followings ∧ e.1 ∈ user_stats.map Prod.fst ∧
        e.2 ∈ user_stats.map Prod.fst) := by
  unfold build_user_network
  simp [List.mem_filter, and_assoc]

/-- C5 (code bug): the two-node graph A → B built by `build_user_network` has
more than one node and is weakly but not strongly connected; the
`avg_shortest_path` computation of `analyze_network_metrics` passes its
weak-connectivity guard and then calls `nx.average_shortest_path_length` on
the directed graph, which raises `NetworkXError` instead of reporting an
infinite/undefined value. -/
theorem C5_weakly_connected_raises :
    1 < c5Graph.nodes.length ∧
    is_weakly_connected c5Graph = true ∧
    is_strongly_connected c5Graph = false ∧
    avg_shortest_path_metric c5Graph =
      Except.error "NetworkXError: Graph is not strongly connected." := by
  refine ⟨by decide!, by decide!, by decide!, rfl⟩

/-- C7 (counterexample): no key of the account record and no key of a report
entry is a synthesized marker — the claim that every synthesized field carries
an explicit `synthesized=true` tag fails on every record the code builds. -/
theorem C7_no_synthesized_tag_counterexample :
    ¬ ("synthesized" ∈ user_stats_field_names ∨
        "synthesized" ∈ top_kol_field_names) := by
  decide!

/-- C7 (amended): the account records and report entries carry exactly the
source keys; none of them is, or even mentions, a synthesized tag, so report
consumers cannot distinguish synthesized from measured values. -/
theorem C7_fields_untagged :
    user_stats_field_names.all (fun f => !(containsSub f "synthesized")) = true ∧
    top_kol_field_names.all (fun f => !(containsSub f "synthesized")) = true ∧
    "synthesized" ∉ user_stats_field_names ∧
    "synthesized" ∉ top_kol_field_names := by
  refine ⟨by decide!, by decide!, by decide!, by decide!⟩

/-! ### The augmenter and the random stream -/

theorem take_succ_parts {l l' : List ℕ} {k : ℕ} (h : l.take (k + 1) = l'.take (k + 1)) :
    l.headD 0 = l'.headD 0 ∧ l.tail.take k = l'.tail.take k := by
  cases l with
  | nil =>
      cases l' with
      | nil => exact ⟨rfl, rfl⟩
      | cons b bs => simp at h
  | cons a as =>
      cases l' with
      | nil => simp at h
      | cons b bs =>
          simp only [List.take_succ_cons] at h
          injection h with h1 h2
          exact ⟨h1, h2⟩

theorem tail_repeated_eq_drop (l : List ℕ) : l.tail.tail.tail.tail = l.drop 4 := by
  rcases l with _ | ⟨a, _ | ⟨b, _ | ⟨c, _ | ⟨d, t⟩⟩⟩⟩ <;> rfl

theorem augment_one_snd (m : MeasuredStats) (rng : List ℕ) :
    (augment_one m rng).2 = rng.drop 4 := by
  rw [← tail_repeated_eq_drop]
  rfl

theorem augment_one_fst_congr (m : MeasuredStats) {rng rng' : List ℕ}
    (h : rng.take 4 = rng'.take 4) :
    (augment_one m rng).1 = (augment_one m rng').1 := by
  obtain ⟨h1, h⟩ := take_succ_parts h
  obtain ⟨h2, h⟩ := take_succ_parts h
  obtain ⟨h3, h⟩ := take_succ_parts h
  obtain ⟨h4, -⟩ := take_succ_parts h
  simp only [augment_one, np_randint, np_choice_verified]
  rw [h1, h2, h3, h4]

theorem generate_mock_snd (ms : List (String × MeasuredStats)) :
    ∀ rng : List ℕ, (generate_mock_kol_data ms rng).2 = rng.drop (4 * ms.length) := by
  induction ms with
  | nil => intro rng; simp [generate_mock_kol_data]
  | cons p rest ih =>
      intro rng
      obtain ⟨uid, m⟩ := p
      simp only [generate_mock_kol_data]
      rw [ih, augment_one_snd, List.drop_drop, List.length_cons]
      congr 1
      ring

theorem generate_mock_fst_congr (ms : List (String × MeasuredStats)) :
    ∀ rng rng' : List ℕ,
      rng.take (4 * ms.length) = rng'.take (4 * ms.length) →
      (generate_mock_kol_data ms rng).1 = (generate_mock_kol_data ms rng').1 := by
  induction ms with
  | nil => intro rng rng' _; rfl
  | cons p rest ih =>
      intro rng rng' h
      obtain ⟨uid, m⟩ := p
      rw [List.length_cons, show 4 * (rest.length + 1) = 4 + (4 * rest.length) by ring] at h
      have hmn : (4:ℕ) ≤ 4 + 4 * rest.length := by omega
      have h4 : rng.take 4 = rng'.take 4 := by
        have hc := congrArg (List.take 4) h
        rwa [List.take_take, List.take_take, min_eq_left hmn] at hc
      have hdrop : (rng.drop 4).take (4 * rest.length) =
          (rng'.drop 4).take (4 * rest.length) := by
        have hc := congrArg (List.drop 4) h
        rw [List.drop_take, List.drop_take] at hc
        simpa using hc
      simp only [generate_mock_kol_data]
      rw [augment_one_snd, augment_one_snd, augment_one_fst_congr m h4, ih _ _ hdrop]

/-- C8 (counterexample): the augmenter has no seed parameter; it reads the
advancing global generator.  Two successive runs on the identical one-account
stats map — the second starting, as any rerun in the same process does, from
the generator state left by the first — synthesize different follower counts
(1000 vs 1001 on the concrete stream `c8Rng`), so rerunning does not reproduce
the values. -/
theorem C8_fresh_draws_counterexample :
    (c8FirstRun.1.map (fun p => p.2.follower_count)) ≠
      (c8SecondRun.1.map (fun p => p.2.follower_count)) ∧
    c8FirstRun.1.map (fun p => p.2.follower_count) = [1000] ∧
    c8SecondRun.1.map (fun p => p.2.follower_count) = [1001] := by
  refine ⟨by decide!, by decide!, by decide!⟩

/-- C8 (amended): the augmenter accepts no seed; its output is a deterministic
function of the first `4 × n` draws of the global generator's stream (four
draws per account), so reproducing the generator state reproduces all
synthesized values, and each run advances the stream past the draws it
consumed — a rerun therefore draws fresh values. -/
theorem C8_unseeded_determinism (ms : List (String × MeasuredStats))
    (rng rng' : List ℕ)
    (h : rng.take (4 * ms.length) = rng'.take (4 * ms.length)) :
    (generate_mock_kol_data ms rng).1 = (generate_mock_kol_data ms rng').1 ∧
    (generate_mock_kol_data ms rng).2 = rng.drop (4 * ms.length) :=
  ⟨generate_mock_fst_congr ms rng rng' h, generate_mock_snd ms rng⟩

/-- C8 (witness): the amended theorem applied to the concrete one-account
input and two streams agreeing on their first four draws. -/
theorem C8_unseeded_determinism_witness :
    ([5, 6, 7, 8] : List ℕ).take (4 * c8Input.length) =
        ([5, 6, 7, 8, 9] : List ℕ).take (4 * c8Input.length) ∧
    ((generate_mock_kol_data c8Input [5, 6, 7, 8]).1 =
        (generate_mock_kol_data c8Input [5, 6, 7, 8, 9]).1 ∧
      (generate_mock_kol_data c8Input [5, 6, 7, 8]).2 =
        ([5, 6, 7, 8] : List ℕ).drop (4 * c8Input.length)) :=
  ⟨by decide!,
    C8_unseeded_determinism c8Input [5, 6, 7, 8] [5, 6, 7, 8, 9] (by decide!)⟩

/-! ### Distribution counting and the ranking -/

theorem tier_filter_length_sum (l : List (String × KolRecord)) :
    (l.filter (fun p => decide (p.2.kol_level = Tier.tier1))).length +
      (l.filter (fun p => decide (p.2.kol_level = Tier.tier2))).length +
      (l.filter (fun p => decide (p.2.kol_level = Tier.tier3))).length +
      (l.filter (fun p => decide (p.2.kol_level = Tier.tier4))).length = l.length := by
  induction l with
  | nil => rfl
  | cons a l ih =>
      cases ht : a.2.kol_level <;>
        simp [List.filter_cons, ht, List.length_cons] <;> omega

theorem category_filter_length_sum (l : List (String × KolRecord)) :
    (l.filter (fun p => decide (p.2.category = Category.crypto))).length +
      (l.filter (fun p => decide (p.2.category = Category.tech))).length +
      (l.filter (fun p => decide (p.2.category = Category.finance))).length +
      (l.filter (fun p => decide (p.2.category = Category.entertainment))).length +
      (l.filter (fun p => decide (p.2.category = Category.general))).length = l.length := by
  induction l with
  | nil => rfl
  | cons a l ih =>
      cases ht : a.2.category <;>
        simp [List.filter_cons, ht, List.length_cons] <;> omega

/-- C6 (counterexample): on the concrete 21-qualified-account map `c6BigStats`
the report's tier-distribution counts sum to 20, not to the qualified count
21 — the distributions are incremented inside the top-20 loop, so they count
only the ranked top-20 accounts, not every qualified account. -/
theorem C6_distribution_counterexample : c6Observed = some (20, 21) := by
  decide!

/-- C6 (amended): the per-tier and per-category distributions count exactly
the ranked top-20 accounts, so their sums equal `min 20 qualifiedCount`
(rather than `qualifiedCount`); `top_kols` is the 20-element prefix of the
qualified accounts sorted by influence score in descending order — a sorted
permutation of the qualified set — so it holds the at most 20 highest-scoring
qualified accounts in descending order. -/
theorem C6_distributions_and_ranking (user_stats : List (String × UserStats))
    (r : KolReport) (h : generate_kol_report 10000 (1/10) user_stats = Except.ok r) :
    tier_distribution_total r = min 20 r.summary.total_kols ∧
    category_distribution_total r = min 20 r.summary.total_kols ∧
    r.top_kols =
      ((sorted_kols (identify_kols 10000 (1/10) user_stats)).take 20).map mk_top_entry ∧
    List.Pairwise (fun a b => b.influence_score ≤ a.influence_score) r.top_kols ∧
    List.Pairwise kolGe (sorted_kols (identify_kols 10000 (1/10) user_stats)) ∧
    (sorted_kols (identify_kols 10000 (1/10) user_stats)).Perm
      (identify_kols 10000 (1/10) user_stats) := by
  obtain ⟨hk, -, -, htop, hcat, hlev⟩ := generate_kol_report_eq_ok h
  have hperm : (sorted_kols (identify_kols 10000 (1/10) user_stats)).Perm
      (identify_kols 10000 (1/10) user_stats) :=
    List.perm_insertionSort kolGe _
  have hsl : (sorted_kols (identify_kols 10000 (1/10) user_stats)).length =
      (identify_kols 10000 (1/10) user_stats).length := hperm.length_eq
  have hPW : List.Pairwise kolGe (sorted_kols (identify_kols 10000 (1/10) user_stats)) :=
    List.sorted_insertionSort kolGe _
  refine ⟨?_, ?_, htop, ?_, hPW, hperm⟩
  · unfold tier_distribution_total
    rw [hlev, hk]
    rw [tier_filter_length_sum, List.length_take, hsl]
  · unfold category_distribution_total
    rw [hcat, hk]
    rw [category_filter_length_sum, List.length_take, hsl]
  · have h1 : List.Pairwise kolGe
        ((sorted_kols (identify_kols 10000 (1/10) user_stats)).take 20) :=
      List.Pairwise.sublist (List.take_sublist 20 _) hPW
    rw [htop, List.pairwise_map]
    exact List.Pairwise.imp (fun hab => hab) h1

/-- C6 (witness): the amended theorem applied to the concrete one-account map
`c6SmallStats`. -/
theorem C6_distributions_and_ranking_witness :
    generate_kol_report 10000 (1/10) c6SmallStats = Except.ok c6SmallReport ∧
    (tier_distribution_total c6SmallReport = min 20 c6SmallReport.summary.total_kols ∧
      category_distribution_total c6SmallReport =
        min 20 c6SmallReport.summary.total_kols ∧
      c6SmallReport.top_kols =
        ((sorted_kols (identify_kols 10000 (1/10) c6SmallStats)).take 20).map
          mk_top_entry ∧
      List.Pairwise (fun a b => b.influence_score ≤ a.influence_score)
        c6SmallReport.top_kols ∧
      List.Pairwise kolGe (sorted_kols (identify_kols 10000 (1/10) c6SmallStats)) ∧
      (sorted_kols (identify_kols 10000 (1/10) c6SmallStats)).Perm
        (identify_kols 10000 (1/10) c6SmallStats)) :=
  ⟨rfl, C6_distributions_and_ranking c6SmallStats c6SmallReport rfl⟩

/-! ### Degenerate report inputs -/

/-- C9 (counterexample): on the empty stats map the `kol_percentage`
computation of `generate_kol_report` divides `len(self.kol_data)` by
`len(self.user_stats) = 0` and raises `ZeroDivisionError` — no report is
produced, contradicting the claim that report generation never raises,
including on an empty stats map. -/
theorem C9_empty_stats_counterexample :
    generate_kol_report 10000 (1/10) ([] : List (String × UserStats)) =
      Except.error "ZeroDivisionError" := rfl

/-- C9 (amended): on every nonempty stats map report generation succeeds, and
when no account qualifies the report carries an empty ranking, zero counts,
zero distributions and a zero qualified percentage; only the completely empty
stats map is a hard failure (the division by zero above). -/
theorem C9_degenerate_report (user_stats : List (String × UserStats))
    (h : user_stats ≠ []) :
    generate_kol_report 10000 (1/10) user_stats =
      Except.ok (report_or_empty (generate_kol_report 10000 (1/10) user_stats)) ∧
    (identify_kols 10000 (1/10) user_stats = [] →
      (report_or_empty (generate_kol_report 10000 (1/10) user_stats)).top_kols = [] ∧
      (report_or_empty (generate_kol_report 10000 (1/10) user_stats)).summary.total_kols
          = 0 ∧
      tier_distribution_total
          (report_or_empty (generate_kol_report 10000 (1/10) user_stats)) = 0 ∧
      category_distribution_total
          (report_or_empty (generate_kol_report 10000 (1/10) user_stats)) = 0 ∧
      (report_or_empty
          (generate_kol_report 10000 (1/10) user_stats)).summary.kol_percentage = 0) := by
  have hlen : ¬ user_stats.length = 0 := fun hl => h (List.length_eq_zero.mp hl)
  cases hE : generate_kol_report 10000 (1/10) user_stats with
  | error msg =>
      exfalso
      simp only [generate_kol_report] at hE
      rw [if_neg hlen] at hE
      exact Except.noConfusion hE
  | ok r =>
      obtain ⟨hk, -, hpc, htop, hcat, hlev⟩ := generate_kol_report_eq_ok hE
      refine ⟨rfl, fun hempty => ?_⟩
      have hsorted : sorted_kols (identify_kols 10000 (1/10) user_stats) = [] := by
        rw [hempty]; rfl
      refine ⟨?_, ?_, ?_, ?_, ?_⟩
      · show r.top_kols = []
        rw [htop, hsorted]; rfl
      · show r.summary.total_kols = 0
        rw [hk, hempty]; rfl
      · show tier_distribution_total r = 0
        unfold tier_distribution_total
        rw [hlev, hsorted]
        rfl
      · show category_distribution_total r = 0
        unfold category_distribution_total
        rw [hcat, hsorted]
        rfl
      · show r.summary.kol_percentage = 0
        rw [hpc, hempty]
        simp

/-- C9 (witness): the amended theorem applied to the concrete nonempty
one-account map `c9Stats` on which no account qualifies. -/
theorem C9_degenerate_report_witness :
    generate_kol_report 10000 (1/10) c9Stats = Except.ok c9Report ∧
    c9Report.top_kols = [] ∧ c9Report.summary.total_kols = 0 ∧
    tier_distribution_total c9Report = 0 ∧
    category_distribution_total c9Report = 0 ∧
    c9Report.summary.kol_percentage = 0 := by
  have h := C9_degenerate_report c9Stats (by decide)
  have hkols : identify_kols 10000 (1/10) c9Stats = [] := by decide!
  obtain ⟨h1, h2⟩ := h
  obtain ⟨g1, g2, g3, g4, g5⟩ := h2 hkols
  exact ⟨h1, g1, g2, g3, g4, g5⟩

end KolAnalysis
